import Mathlib

/-!
Verification of `src/transformers/quantizers/quantizer_auto_round.py`:
the `AutoRoundQuantizer` adapter between the model-loading framework and
the external `auto_round` quantization engine.

The adapter's state, its environment checks, and its two weight-loading
hooks are embedded shallowly.  Calls into the external engine
(`infer_target_device`, `convert_hf_model`, `post_init`) and warning
logs are recorded in an explicit trace; the external engine itself is an
arbitrary parameter (`AutoRoundLib`), since its code is out of scope.
-/

namespace AutoRoundQuant

/-- A parsed release version `major.minor.patch`, as `version.parse` of the
`packaging` library yields on release strings such as `"0.5.0"`. -/
structure PkgVersion where
  major : Nat
  minor : Nat
  patch : Nat
deriving DecidableEq, Repr

/-- Strict lexicographic order on release versions, the order
`packaging.version` uses to compare plain releases. -/
def PkgVersion.vlt (a b : PkgVersion) : Prop :=
  a.major < b.major ∨
    (a.major = b.major ∧
      (a.minor < b.minor ∨ (a.minor = b.minor ∧ a.patch < b.patch)))

instance (a b : PkgVersion) : Decidable (a.vlt b) := by
  unfold PkgVersion.vlt
  exact inferInstance

/-- Errors the adapter can raise: `ImportError` with its message string
(used for both missing dependencies and unsupported versions),
`NotImplementedError`, and `AttributeError` on reading an attribute that
was never assigned. -/
inductive PyError
  | importError (msg : String)
  | notImplementedError
  | attributeError (attr : String)
deriving DecidableEq, Repr

/-- The interpreter environment the adapter probes: whether `auto_round`
and `optimum` are importable, and the installed `auto_round` version
(meaningful only when the package is available). -/
structure PyEnv where
  auto_round_available : Bool
  auto_round_version : PkgVersion
  optimum_available : Bool
deriving DecidableEq, Repr

/-- A device map, e.g. `[("", "cuda")]` for the map sending the whole
model to cuda. -/
abbrev DeviceMap : Type := List (String × String)

/-- The backend selection the external engine reports from
`convert_hf_model` (a list of backend names). -/
abbrev Backends : Type := List String

/-- The model handle: its class-level `main_input_name` plus opaque
content. -/
structure PreTrainedModel where
  main_input_name : String
  payload : Nat
deriving DecidableEq, Repr

/-- The mutable attributes of an `AutoRoundQuantizer` instance:
`pre_quantized` (set by the base-class constructor from the
configuration), `device_map` (assigned by `validate_environment`), and
`used_backends`, where `none` models the attribute never having been
assigned, so that reading it raises `AttributeError`. -/
structure AutoRoundQuantizer where
  pre_quantized : Bool
  device_map : Option DeviceMap
  used_backends : Option Backends
deriving DecidableEq, Repr

/-- The external engine functions the hooks call.  `convert_hf_model`
returns the (possibly new) model handle together with the backend
selection it chose. -/
structure AutoRoundLib where
  infer_target_device : Option DeviceMap → String
  convert_hf_model : PreTrainedModel → String → PreTrainedModel × Backends

/-- One observable call made by a hook: a warning log or an invocation
of an external-engine function with its arguments. -/
inductive ExtCall
  | logWarning (msg : String)
  | inferTargetDevice (dm : Option DeviceMap)
  | convertHfModel (m : PreTrainedModel) (device : String)
  | postInit (m : PreTrainedModel) (backends : Backends)
deriving DecidableEq, Repr

/-- `validate_environment`: records the device map, then raises
`ImportError` if `auto_round` is missing, if its version is below 0.5.0,
or if `optimum` is missing; otherwise succeeds with the updated state. -/
def validate_environment (env : PyEnv) (st : AutoRoundQuantizer)
    (device_map : Option DeviceMap) : Except PyError AutoRoundQuantizer :=
  let st := { st with device_map := device_map }
  if env.auto_round_available = false then
    .error (.importError
      "Loading an AutoRound quantized model requires auto-round library (`pip install \x27auto-round>=0.5\x27`)")
  else if env.auto_round_version.vlt ⟨0, 5, 0⟩ then
    .error (.importError
      "You need a version of auto_round >= 0.5.0 to use AutoRound: `pip install --upgrade auto-round`")
  else if env.optimum_available = false then
    .error (.importError
      "Loading a AutoRound quantized model requires optimum (`pip install optimum`)")
  else
    .ok st

/-- The torch dtypes relevant to the adapter. -/
inductive TorchDtype
  | float16
  | bfloat16
  | float32
  | float64
deriving DecidableEq, Repr

/-- `update_torch_dtype`: `none` becomes `float16` with an info log; any
explicit dtype is returned unchanged, with an info log when it is not
`float16`.  Returns the chosen dtype and the emitted log messages. -/
def update_torch_dtype (torch_dtype : Option TorchDtype) :
    TorchDtype × List String :=
  match torch_dtype with
  | none =>
      (.float16,
        ["Loading the model in `torch.float16`. To overwrite it, set `torch_dtype` manually."])
  | some d =>
      if d ≠ .float16 then
        (d, ["We suggest you to set `torch_dtype=torch.float16` for better efficiency with AutoRound"])
      else
        (d, [])

/-- The outcome of `_process_model_before_weight_loading`: the updated
quantizer attributes, the final value of the local variable `model`
(rebound by `convert_hf_model` on the pre-quantized path), the Python
return value (implicitly `None`), and the call trace. -/
structure BeforeResult where
  quantizer : AutoRoundQuantizer
  localModel : PreTrainedModel
  ret : Option PreTrainedModel
  calls : List ExtCall

/-- `_process_model_before_weight_loading`: warns for non-text models;
when `pre_quantized`, infers the target device from the recorded device
map, converts the model through the external engine, and stores the
returned backend selection in `used_backends`; otherwise does nothing
further. -/
def _process_model_before_weight_loading (lib : AutoRoundLib)
    (st : AutoRoundQuantizer) (model : PreTrainedModel) : BeforeResult :=
  let warnCalls :=
    if model.main_input_name ≠ "input_ids" then
      [ExtCall.logWarning "We provide limited support for models that are not purely text-based."]
    else []
  if st.pre_quantized = true then
    let target_device := lib.infer_target_device st.device_map
    let converted := lib.convert_hf_model model target_device
    { quantizer := { st with used_backends := some converted.2 }
      localModel := converted.1
      ret := none
      calls := warnCalls ++
        [ExtCall.inferTargetDevice st.device_map,
         ExtCall.convertHfModel model target_device] }
  else
    { quantizer := st, localModel := model, ret := none, calls := warnCalls }

/-- `_process_model_after_weight_loading`: when `pre_quantized`, calls
`post_init` with the model and the stored `used_backends` (reading an
unassigned attribute raises `AttributeError`); otherwise raises
`NotImplementedError`. -/
def _process_model_after_weight_loading (st : AutoRoundQuantizer)
    (model : PreTrainedModel) : Except PyError (List ExtCall) :=
  if st.pre_quantized = true then
    match st.used_backends with
    | some b => .ok [ExtCall.postInit model b]
    | none => .error (.attributeError "used_backends")
  else
    .error .notImplementedError

/-- `is_trainable`: unconditionally `true`, ignoring the model. -/
def is_trainable (model : Option PreTrainedModel) : Bool :=
  true

/-- `is_serializable`: unconditionally `true`, ignoring the argument. -/
def is_serializable (safe_serialization : Option Bool) : Bool :=
  true

/-- A concrete external engine used to instantiate witnesses: reads the
target device from the whole-model entry of the device map, bumps the
model payload on conversion, and reports one backend. -/
def testLib : AutoRoundLib where
  infer_target_device := fun dm =>
    match dm with
    | some (("", d) :: _) => d
    | _ => "cpu"
  convert_hf_model := fun m _ => ({ m with payload := m.payload + 1 }, ["triton"])

/-- A valid environment: both packages present, version exactly 0.5.0. -/
def goodEnv : PyEnv :=
  { auto_round_available := true
    auto_round_version := ⟨0, 5, 0⟩
    optimum_available := true }

/-- A concrete text model for witnesses. -/
def testModel : PreTrainedModel :=
  { main_input_name := "input_ids", payload := 0 }

theorem validate_environment_ok (env : PyEnv) (st st' : AutoRoundQuantizer)
    (dm : Option DeviceMap)
    (h : validate_environment env st dm = .ok st') :
    st' = { st with device_map := dm } := by
  unfold validate_environment at h
  split at h
  · exact absurd h (by simp)
  · split at h
    · exact absurd h (by simp)
    · split at h
      · exact absurd h (by simp)
      · exact (Except.ok.injEq _ _ ▸ h).symm

/-- Claim C1: on a pre-quantized configuration whose environment
validated successfully with device map `dm`, the before-hook invokes the
conversion routine at the device inferred from `dm`, stores the backend
selection that the conversion returned, and the after-hook then invokes
`post_init` with exactly that stored selection. -/
theorem before_after_pre_quantized
    (lib : AutoRoundLib) (env : PyEnv) (st₀ st₁ : AutoRoundQuantizer)
    (dm : Option DeviceMap) (model model₂ : PreTrainedModel)
    (hpre : st₀.pre_quantized = true)
    (hval : validate_environment env st₀ dm = .ok st₁) :
    ExtCall.convertHfModel model (lib.infer_target_device dm) ∈
      (_process_model_before_weight_loading lib st₁ model).calls ∧
    (_process_model_before_weight_loading lib st₁ model).quantizer.used_backends =
      some (lib.convert_hf_model model (lib.infer_target_device dm)).2 ∧
    _process_model_after_weight_loading
        (_process_model_before_weight_loading lib st₁ model).quantizer model₂ =
      .ok [ExtCall.postInit model₂
        (lib.convert_hf_model model (lib.infer_target_device dm)).2] := by
  have h1 := validate_environment_ok env st₀ st₁ dm hval
  subst h1
  refine ⟨?_, ?_, ?_⟩ <;>
    simp [_process_model_before_weight_loading,
      _process_model_after_weight_loading, hpre]

/-- Witness for C1 at a concrete engine, environment, device map
`[("", "cuda")]` and model. -/
theorem before_after_pre_quantized_witness :
    ExtCall.convertHfModel testModel (testLib.infer_target_device (some [("", "cuda")])) ∈
      (_process_model_before_weight_loading testLib
        ⟨true, some [("", "cuda")], none⟩ testModel).calls ∧
    (_process_model_before_weight_loading testLib
        ⟨true, some [("", "cuda")], none⟩ testModel).quantizer.used_backends =
      some (testLib.convert_hf_model testModel
        (testLib.infer_target_device (some [("", "cuda")]))).2 ∧
    _process_model_after_weight_loading
        (_process_model_before_weight_loading testLib
          ⟨true, some [("", "cuda")], none⟩ testModel).quantizer testModel =
      .ok [ExtCall.postInit testModel
        (testLib.convert_hf_model testModel
          (testLib.infer_target_device (some [("", "cuda")]))).2] :=
  before_after_pre_quantized testLib goodEnv ⟨true, none, none⟩
    ⟨true, some [("", "cuda")], none⟩ (some [("", "cuda")]) testModel testModel
    rfl rfl

/-- Claim C2: on a non-pre-quantized configuration, the after-hook
raises `NotImplementedError` for every model, device map, and stored
backend state. -/
theorem after_not_pre_quantized (dm : Option DeviceMap) (ub : Option Backends)
    (model : PreTrainedModel) :
    _process_model_after_weight_loading ⟨false, dm, ub⟩ model =
      .error .notImplementedError := by
  simp [_process_model_after_weight_loading]

/-- Claim C3: with `auto_round` installed at version `v`,
`validate_environment` raises the upgrade `ImportError` exactly when
`v < 0.5.0`, and succeeds (recording the device map) exactly when
`v ≥ 0.5.0` and `optimum` is also present. -/
theorem validate_version_gate (v : PkgVersion) (b : Bool)
    (st : AutoRoundQuantizer) (dm : Option DeviceMap) :
    (validate_environment ⟨true, v, b⟩ st dm =
        .error (.importError
          "You need a version of auto_round >= 0.5.0 to use AutoRound: `pip install --upgrade auto-round`")
      ↔ v.vlt ⟨0, 5, 0⟩) ∧
    (validate_environment ⟨true, v, b⟩ st dm = .ok { st with device_map := dm }
      ↔ (¬ v.vlt ⟨0, 5, 0⟩ ∧ b = true)) := by
  by_cases hv : v.vlt ⟨0, 5, 0⟩ <;> cases b <;>
    simp [validate_environment, hv]

/-- Claim C4: when `auto_round` is absent, `validate_environment` raises
the `ImportError` naming the install command, for every device map and
every value of the (never inspected) installed version and `optimum`
availability — the version check is never reached. -/
theorem validate_missing_auto_round (v : PkgVersion) (b : Bool)
    (st : AutoRoundQuantizer) (dm : Option DeviceMap) :
    validate_environment ⟨false, v, b⟩ st dm =
      .error (.importError
        "Loading an AutoRound quantized model requires auto-round library (`pip install \x27auto-round>=0.5\x27`)") := by
  simp [validate_environment]

/-- Claim C5: on the pre-quantized path, once the before-hook has run the
`used_backends` attribute is set and the after-hook succeeds; on a
pre-quantized state where the before-hook has not run (attribute unset),
the after-hook fails with `AttributeError`, a programming error. -/
theorem after_sequencing (lib : AutoRoundLib) (dm : Option DeviceMap)
    (ub : Option Backends) (model model₂ : PreTrainedModel) :
    ((_process_model_before_weight_loading lib ⟨true, dm, ub⟩ model).quantizer.used_backends =
        some (lib.convert_hf_model model (lib.infer_target_device dm)).2 ∧
      _process_model_after_weight_loading
          (_process_model_before_weight_loading lib ⟨true, dm, ub⟩ model).quantizer model₂ =
        .ok [ExtCall.postInit model₂
          (lib.convert_hf_model model (lib.infer_target_device dm)).2]) ∧
    _process_model_after_weight_loading ⟨true, dm, none⟩ model₂ =
      .error (.attributeError "used_backends") := by
  refine ⟨⟨?_, ?_⟩, ?_⟩ <;>
    simp [_process_model_before_weight_loading,
      _process_model_after_weight_loading]

/-- Claim C6: `update_torch_dtype` maps an unset dtype to `float16` and
returns any explicitly requested dtype unchanged. -/
theorem update_torch_dtype_spec :
    (update_torch_dtype none).1 = TorchDtype.float16 ∧
    ∀ d : TorchDtype, (update_torch_dtype (some d)).1 = d := by
  refine ⟨rfl, fun d => ?_⟩
  by_cases h : d = TorchDtype.float16 <;> simp [update_torch_dtype, h]

/-- Claim C7: on a non-pre-quantized configuration the before-hook leaves
the quantizer state (in particular `used_backends`) unchanged, leaves the
model handle unchanged, and never calls the conversion routine. -/
theorem before_not_pre_quantized_noop (lib : AutoRoundLib)
    (dm : Option DeviceMap) (ub : Option Backends) (model : PreTrainedModel) :
    (_process_model_before_weight_loading lib ⟨false, dm, ub⟩ model).quantizer =
      ⟨false, dm, ub⟩ ∧
    (_process_model_before_weight_loading lib ⟨false, dm, ub⟩ model).localModel =
      model ∧
    ∀ m d, ExtCall.convertHfModel m d ∉
      (_process_model_before_weight_loading lib ⟨false, dm, ub⟩ model).calls := by
  refine ⟨?_, ?_, ?_⟩
  · simp [_process_model_before_weight_loading]
  · simp [_process_model_before_weight_loading]
  · intro m d
    simp only [_process_model_before_weight_loading]
    by_cases h : model.main_input_name = "input_ids" <;> simp [h]

/-- Claim C8: with `auto_round` present at a version at least 0.5.0 but
`optimum` absent, `validate_environment` raises the `ImportError` naming
the `optimum` install command. -/
theorem validate_missing_optimum (v : PkgVersion) (st : AutoRoundQuantizer)
    (dm : Option DeviceMap) (hge : ¬ v.vlt ⟨0, 5, 0⟩) :
    validate_environment ⟨true, v, false⟩ st dm =
      .error (.importError
        "Loading a AutoRound quantized model requires optimum (`pip install optimum`)") := by
  simp [validate_environment, hge]

/-- Witness for C8 at the concrete version 0.6.2. -/
theorem validate_missing_optimum_witness :
    validate_environment ⟨true, ⟨0, 6, 2⟩, false⟩ ⟨true, none, none⟩ none =
      .error (.importError
        "Loading a AutoRound quantized model requires optimum (`pip install optimum`)") :=
  validate_missing_optimum ⟨0, 6, 2⟩ ⟨true, none, none⟩ none (by decide)

/-- Claim C9: `is_trainable` and `is_serializable` return `true` on every
input, including an absent model handle. -/
theorem trainable_serializable_const :
    (∀ m : Option PreTrainedModel, is_trainable m = true) ∧
    (∀ s : Option Bool, is_serializable s = true) :=
  ⟨fun _ => rfl, fun _ => rfl⟩

/-- Claim C10: the before-hook always returns `None`; on the
pre-quantized path the converted model handle produced by
`convert_hf_model` is only the final value of the local variable, never
the return value. -/
theorem before_returns_none (lib : AutoRoundLib) (st : AutoRoundQuantizer)
    (dm : Option DeviceMap) (ub : Option Backends) (model : PreTrainedModel) :
    (_process_model_before_weight_loading lib st model).ret = none ∧
    (_process_model_before_weight_loading lib ⟨true, dm, ub⟩ model).localModel =
      (lib.convert_hf_model model (lib.infer_target_device dm)).1 := by
  constructor
  · simp only [_process_model_before_weight_loading]
    by_cases h : st.pre_quantized = true <;> simp [h]
  · simp [_process_model_before_weight_loading]

end AutoRoundQuant
